import Mathlib

/-!
Shallow embedding of `src/walla-bot.py` (the Wallapop scraping bot).

The browser, filesystem and network are external effects; they are embedded
as explicit data fed to the pure core:

* a rendered listing card (`RawCard`) carries exactly the attributes and
  sub-elements the Python code reads through Selenium;
* the rendered-card count observed at each pagination iteration of
  `load_all_results` is an oracle function `counts : Nat → Nat`;
* the seen-ads file `data/seen_ads.txt` is its list of lines
  (`List String`); `set(...)` membership is list membership;
* an SMTP dispatch outcome is an oracle `SmtpOutcome`;
* a Python exception raised inside a session's browser steps is an oracle
  `navFault : Option String`; exception propagation is `Except String`.

Python `float(...)` is modelled exactly on the decimal fragment the price
pipeline can produce: an optional sign followed by digits with at most one
dot, valued as an exact rational (`pyFloat`).
-/

namespace WallaBot

/-- Decimal value of a digit list, most significant first (how Python reads
a digit string). Only applied under an all-digits guard. -/
def digitsToNat (cs : List Char) : Nat :=
  cs.foldl (fun n c => n * 10 + (c.toNat - 48)) 0

/-- Python `str.split(sep)` for a one-character separator. `"".split(s)`
is `[""]`, and a trailing separator yields a trailing empty group, exactly
as in Python. -/
def splitOnChar (sep : Char) : List Char → List (List Char)
  | [] => [[]]
  | c :: cs =>
    match splitOnChar sep cs with
    | [] => [[]]
    | g :: gs => if c = sep then [] :: g :: gs else (c :: g) :: gs

/-- Characters Python `str.strip()` removes (ASCII whitespace plus the
no-break space, which `str.isspace` accepts). -/
def pyIsSpace (c : Char) : Bool :=
  c == ' ' || c == '\t' || c == '\n' || c == '\r' || c == '\x0b' ||
    c == '\x0c' || c == '\u00A0'

/-- Python `str.strip()`: drop leading and trailing whitespace. -/
def pyStrip (cs : List Char) : List Char :=
  ((cs.dropWhile pyIsSpace).reverse.dropWhile pyIsSpace).reverse

/-- Line 210 of `walla-bot.py`:
`(price_text.replace('€','').replace('.','').replace(',','.').strip()).replace('\u00A0','')`.
Each `replace` is on a single character, so removal is a filter and the
comma swap is a map. -/
def normalizePrice (t : String) : String :=
  let a := t.data.filter (fun c => !(c == '€'))
  let b := a.filter (fun c => !(c == '.'))
  let m := b.map (fun ch => if ch == ',' then '.' else ch)
  String.mk ((pyStrip m).filter (fun ch => !(ch == '\u00A0')))

/-- Python `float(s)` on the fragment reachable from the price pipeline:
optional sign, then digits with at most one `'.'` and at least one digit.
The value is the exact rational the decimal string denotes; `none` models
the `ValueError` that line 213 catches. -/
def pyFloat (s : String) : Option ℚ :=
  let sgn : Bool × List Char :=
    match s.data with
    | '-' :: rest => (true, rest)
    | '+' :: rest => (false, rest)
    | cs => (false, cs)
  let mag : Option ℚ :=
    match splitOnChar '.' sgn.2 with
    | [ip] =>
      if ip ≠ [] ∧ ip.all Char.isDigit then some (mkRat (digitsToNat ip) 1)
      else none
    | [ip, fp] =>
      if (ip ≠ [] ∨ fp ≠ []) ∧ ip.all Char.isDigit ∧ fp.all Char.isDigit then
        some (mkRat (digitsToNat ip * 10 ^ fp.length + digitsToNat fp) (10 ^ fp.length))
      else none
    | _ => none
  mag.map (fun m => if sgn.1 then -m else m)

/-- Line 199: `item_id = href.split('/')[-1]`. -/
def itemIdOf (href : String) : String :=
  String.mk ((splitOnChar '/' href.data).getLastD [])

/-- One rendered listing card, holding exactly what `extract_new_ads` reads
from it: the `href` and `title` attributes (`none` when the attribute is
absent, mirroring Selenium returning `None`), the text of an
`.ItemCard__title` sub-element (`none` when the element is absent, which
raises `NoSuchElementException`), the text of the `.ItemCard__price`
sub-element (`none` when absent), and the `src` of an `img` sub-element. -/
structure RawCard where
  href : Option String
  titleAttr : Option String
  titleText : Option String
  priceText : Option String
  imgSrc : Option String
deriving DecidableEq, Repr

/-- The run configuration fields the core logic consumes:
`max_results` (default 40), `save_images`, `send_email` (default True). -/
structure Config where
  maxResults : Nat
  saveImages : Bool
  sendEmail : Bool
deriving DecidableEq, Repr

/-- The `ad_details` dict built at line 215 plus the optional
`image_url` key added at line 219. -/
structure Ad where
  id : String
  title : String
  price : ℚ
  link : String
  extractedAt : String
  imageUrl : Option String
deriving DecidableEq, Repr

/-- Lines 202-207: prefer the card's `title` attribute when it is truthy
(present and non-empty); otherwise fall back to the `.ItemCard__title`
sub-element's text; `none` when the attribute is falsy and the sub-element
is absent (the `continue` at line 207). -/
def resolveTitle (card : RawCard) : Option String :=
  match card.titleAttr with
  | some t => if t = "" then card.titleText else some t
  | none => card.titleText

/-- Lines 195-223, the body of the extraction loop for one card.
`none` is a skip: a falsy `href`, an id already in `seen`, a missing
title, a missing price element (whose `NoSuchElementException` is caught
by the outer handler at line 224), or a failing `float` conversion. -/
def evalCard (seen : List String) (cfg : Config) (now : String)
    (card : RawCard) : Option Ad :=
  match card.href with
  | none => none
  | some href =>
    if href = "" then none
    else
      let iid := itemIdOf href
      if iid ∈ seen then none
      else
        match resolveTitle card with
        | none => none
        | some title =>
          match card.priceText with
          | none => none
          | some pt =>
            match pyFloat (normalizePrice pt) with
            | none => none
            | some price =>
              some { id := iid, title := title, price := price, link := href,
                     extractedAt := now,
                     imageUrl := if cfg.saveImages then card.imgSrc else none }

/-- Lines 188-226, `extract_new_ads`: process the first `max_results`
rendered cards in order, appending one record per card that survives all
the skip conditions. `seen` is never modified inside the pass. -/
def extract_new_ads (cards : List RawCard) (seen : List String)
    (cfg : Config) (now : String) : List Ad :=
  (cards.take cfg.maxResults).filterMap (evalCard seen cfg now)

/-- Why `load_all_results` stopped: `current >= max_results` (line 175,
"success") or two iterations without growth (line 181, "exhausted"). -/
inductive StopReason where
  | target
  | exhausted
deriving DecidableEq, Repr

/-- Lines 158-186, the `while True` loop of `load_all_results`, unfolded on
fuel. The click / scroll / sleep steps are pure effects; `counts n` is the
card count `len(driver.find_elements(...))` observed at iteration `n`.
State: iteration index `i`, `last_count`, `attempts_without_growth`.
`none` means the fuel ran out before the loop broke. -/
def load_all_results_aux (counts : Nat → Nat) (maxResults : Nat) :
    Nat → Nat → Nat → Nat → Option (Nat × StopReason)
  | 0, _, _, _ => none
  | fuel + 1, i, last, attempts =>
    let current := counts i
    if maxResults ≤ current then some (current, StopReason.target)
    else if current = last then
      if 2 ≤ attempts + 1 then some (current, StopReason.exhausted)
      else load_all_results_aux counts maxResults fuel (i + 1) current (attempts + 1)
    else load_all_results_aux counts maxResults fuel (i + 1) current 0

/-- `load_all_results(driver, max_results)`: the loop started with
`last_count = 0`, `attempts_without_growth = 0`, at iteration 0. -/
def load_all_results (counts : Nat → Nat) (maxResults fuel : Nat) :
    Option (Nat × StopReason) :=
  load_all_results_aux counts maxResults fuel 0 0 0

/-- Lines 105-110, `load_seen_ads`: the seen-ads file's lines as a set;
membership on the line list models set membership. -/
def load_seen_ads (registryFile : List String) : List String :=
  registryFile

/-- Lines 112-115, `save_seen_ad`: append one id line to the file. -/
def save_seen_ad (registryFile : List String) (iid : String) : List String :=
  registryFile ++ [iid]

/-- Outcome of the SMTP dispatch attempted at lines 282-285. -/
inductive SmtpOutcome where
  | ok
  | fail (msg : String)
deriving DecidableEq, Repr

/-- The `server.starttls / login / send_message` block: raises on a
connection or login failure. -/
def smtpSend : SmtpOutcome → Except String Unit
  | SmtpOutcome.ok => Except.ok ()
  | SmtpOutcome.fail m => Except.error m

/-- Lines 249-288, `send_email_alert`, returning its log lines. The SMTP
block sits inside `try/except` (lines 280-288), so a dispatch failure is
converted to a logged error and the function returns normally: the result
is never `Except.error`. -/
def send_email_alert (newAds : List Ad) (smtp : SmtpOutcome) :
    Except String (List String) :=
  if newAds.isEmpty then
    Except.ok ["No new ads found. No email will be sent."]
  else
    match smtpSend smtp with
    | Except.ok _ => Except.ok ["Alert email sent successfully."]
    | Except.error e => Except.ok ["Error sending email: " ++ e]

/-- Environment one search term's session runs against: `navFault` is a
Python exception raised by the browser steps before extraction
(navigation, cookie wait, pagination, screenshot); `cards` is the rendered
card list extraction reads; `smtp` is the SMTP outcome for this session's
email. -/
structure TermEnv where
  navFault : Option String
  cards : List RawCard
  smtp : SmtpOutcome
deriving Repr

/-- One iteration of the `for search_term in search_terms` body
(lines 306-362). On success returns the seen snapshot this session loaded
(line 335), the registry file content after the session, and the session's
new ads. An uncaught exception is `Except.error` and propagates out of the
loop (there is no per-term handler in `main`). -/
def processTerm (cfg : Config) (now : String) (reg : List String)
    (env : TermEnv) : Except String (List String × List String × List Ad) :=
  match env.navFault with
  | some f => Except.error f
  | none =>
    let seen := load_seen_ads reg
    let newAds := extract_new_ads env.cards seen cfg now
    if newAds.isEmpty then Except.ok (seen, reg, [])
    else
      match (if cfg.sendEmail then send_email_alert newAds env.smtp
             else Except.ok []) with
      | Except.error e => Except.error e
      | Except.ok _ =>
        Except.ok (seen, newAds.foldl (fun r a => save_seen_ad r a.id) reg, newAds)

/-- The `for` loop of `main` over the configured terms. Returns the
per-session (seen snapshot, new ads) pairs of the sessions that completed,
the final registry file content, and the exception (if any) that escaped
the loop into the run-level `except` handlers at lines 367-372. -/
def runLoop (cfg : Config) (now : String) :
    List TermEnv → List String →
    List (List String × List Ad) × List String × Option String
  | [], reg => ([], reg, none)
  | env :: rest, reg =>
    match processTerm cfg now reg env with
    | Except.error f => ([], reg, some f)
    | Except.ok (snap, reg2, ads) =>
      let r := runLoop cfg now rest reg2
      ((snap, ads) :: r.1, r.2.1, r.2.2)

/-- Observable outcome of one run of `main`. -/
structure RunResult where
  sessions : List (List String × List Ad)
  registry : List String
  aggregate : List Ad
  uniqueCount : Option Nat
  caughtError : Option String
deriving Repr

/-- Lines 292-375, `main`, for a fixed configuration: run the term loop;
`aggregate` is `all_new_ads`; `uniqueCount` is the summary's
`len(unique_ads)` (the dict keyed by id keeps one entry per distinct id),
computed only when no exception escaped the loop, since the summary lines
363-366 sit inside the `try`; a caught exception is logged and `main`
still returns normally (the `finally` closes the browser). -/
def wallaMain (cfg : Config) (now : String) (envs : List TermEnv)
    (reg0 : List String) : RunResult :=
  let r := runLoop cfg now envs reg0
  let agg := (r.1.map Prod.snd).flatten
  { sessions := r.1
    registry := r.2.1
    aggregate := agg
    uniqueCount := if r.2.2.isNone then some ((agg.map (fun a => a.id)).dedup.length)
                   else none
    caughtError := r.2.2 }

/-- Observable events of one session used to state ordering properties:
the extraction loop reaching card `idx` (line 194), the email dispatch
(line 356), and one `save_seen_ad` append (line 360). -/
inductive Ev where
  | evalCard (idx : Nat)
  | sendEmail
  | append (id : String)
deriving DecidableEq, Repr

/-- Event trace of one session after pagination, in source order:
the extraction loop visits every processed card (lines 194-223, no
registry writes inside), then — when there are new ads — the email is
dispatched (line 356) and only then are the ids appended, one per record,
by the loop at lines 359-360. -/
def sessionTrace (cfg : Config) (now : String) (cards : List RawCard)
    (seen : List String) : List Ev :=
  (List.range (cards.take cfg.maxResults).length).map Ev.evalCard
    ++ (if (extract_new_ads cards seen cfg now).isEmpty then []
        else (if cfg.sendEmail then [Ev.sendEmail] else [])
          ++ (extract_new_ads cards seen cfg now).map (fun a => Ev.append a.id))

/-- The id a card would contribute, before the seen gate: the trailing
path segment of a truthy `href`. -/
def cardId (card : RawCard) : Option String :=
  match card.href with
  | none => none
  | some href => if href = "" then none else some (itemIdOf href)

/-- The lifecycle the registry actually follows across one run's sessions:
the first session's seen snapshot is the registry content at the start of
the run, and each later session's snapshot is the previous session's
snapshot extended by exactly the ids of the records the previous session
accepted. -/
def SnapshotChain : List String → List (List String × List Ad) → Prop
  | _, [] => True
  | reg, s :: rest => s.1 = reg ∧ SnapshotChain (reg ++ s.2.map (fun a => a.id)) rest

/-- Fixture: a card under the site's usual item path with a title
attribute and a price text. -/
def mkCard (slug title price : String) : RawCard :=
  { href := some ("https://es.wallapop.com/item/" ++ slug),
    titleAttr := some title, titleText := none,
    priceText := some price, imgSrc := none }

/-- Fixture configuration: defaults with email sending off. -/
def cfgNoEmail : Config :=
  { maxResults := 40, saveImages := false, sendEmail := false }

/-- Fixture configuration: defaults with email sending on. -/
def cfgEmail : Config :=
  { maxResults := 40, saveImages := false, sendEmail := true }

/-- Fixture session environment: one fresh card, no fault. -/
def envBikeA : TermEnv :=
  { navFault := none, cards := [mkCard "bike-a1" "Bike A" "750 €"],
    smtp := SmtpOutcome.ok }

/-- Fixture session environment: navigation raises a timeout. -/
def envTimeout : TermEnv :=
  { navFault := some "timeout", cards := [], smtp := SmtpOutcome.ok }

/-- Fixture session environment: one fresh card, no fault. -/
def envBikeC : TermEnv :=
  { navFault := none, cards := [mkCard "bike-c1" "Bike C" "300 €"],
    smtp := SmtpOutcome.ok }

/-- Fixture session environment: one fresh card, SMTP dispatch fails. -/
def envSmtpFail : TermEnv :=
  { navFault := none, cards := [mkCard "bike-d1" "Bike D" "120 €"],
    smtp := SmtpOutcome.fail "535 authentication failed" }

/-- Fixture: two fresh cards for ordering properties. -/
def twoCards : List RawCard :=
  [mkCard "x1" "Item A" "10 €", mkCard "x2" "Item B" "20 €"]

/-- Fixture: a card on a different path whose link shares the trailing
segment `x1` with `mkCard "x1" ...`. -/
def dupCardB : RawCard :=
  { href := some "https://es.wallapop.com/other/x1", titleAttr := some "Item B2",
    titleText := none, priceText := some "20 €", imgSrc := none }

/-- Fixture: a card with no title attribute whose title sub-element has
empty inner text. -/
def emptyTitleCard : RawCard :=
  { href := some "https://es.wallapop.com/item/e1", titleAttr := none,
    titleText := some "", priceText := some "750 €", imgSrc := none }

/-- Fixture: a card whose displayed price text carries a leading minus. -/
def negCard : RawCard := mkCard "neg1" "Negative" "-5 €"

/-- Fixture: the record `mkCard "g1" "Good One" "750 €"` extracts to. -/
def adGoodOne : Ad :=
  { id := "g1", title := "Good One", price := mkRat 750 1,
    link := "https://es.wallapop.com/item/g1", extractedAt := "t",
    imageUrl := none }

/-- Fixture: the record `mkCard "bike-a1" "Bike A" "750 €"` extracts to. -/
def adBikeA : Ad :=
  { id := "bike-a1", title := "Bike A", price := mkRat 750 1,
    link := "https://es.wallapop.com/item/bike-a1", extractedAt := "t",
    imageUrl := none }

-- ------------------------------------------------------------------
-- Helper lemmas
-- ------------------------------------------------------------------

/-- One-step unfolding of the pagination loop. -/
theorem load_aux_succ (counts : Nat → Nat) (maxResults fuel i last attempts : Nat) :
    load_all_results_aux counts maxResults (fuel + 1) i last attempts =
      if maxResults ≤ counts i then some (counts i, StopReason.target)
      else if counts i = last then
        if 2 ≤ attempts + 1 then some (counts i, StopReason.exhausted)
        else load_all_results_aux counts maxResults fuel (i + 1) (counts i) (attempts + 1)
      else load_all_results_aux counts maxResults fuel (i + 1) (counts i) 0 :=
  rfl

/-- With the observed count constant over three consecutive iterations,
three more iterations of fuel always suffice, whatever the incoming
`last_count` and `attempts_without_growth` state. -/
theorem load_aux_two_const (counts : Nat → Nat) (maxR i : Nat)
    (h1 : counts (i + 1) = counts i) (h2 : counts (i + 2) = counts i) :
    ∀ last attempts, (load_all_results_aux counts maxR 3 i last attempts).isSome := by
  intro last attempts
  rw [show (3 : Nat) = 2 + 1 from rfl, load_aux_succ]
  by_cases hA : maxR ≤ counts i
  · simp [hA]
  · rw [if_neg hA]
    by_cases hB : counts i = last
    · rw [if_pos hB]
      by_cases hC : 2 ≤ attempts + 1
      · simp [hC]
      · rw [if_neg hC]
        rw [show (2 : Nat) = 1 + 1 from rfl, load_aux_succ]
        by_cases hA1 : maxR ≤ counts (i + 1)
        · simp [hA1]
        · rw [if_neg hA1, if_pos h1, if_pos (by omega)]
          simp
    · rw [if_neg hB]
      rw [show (2 : Nat) = 1 + 1 from rfl, load_aux_succ]
      by_cases hA1 : maxR ≤ counts (i + 1)
      · simp [hA1]
      · rw [if_neg hA1, if_pos h1, if_neg (by omega)]
        rw [show (1 : Nat) = 0 + 1 from rfl, load_aux_succ]
        by_cases hA2 : maxR ≤ counts (i + 2)
        · simp [hA2]
        · rw [if_neg hA2, if_pos (by rw [h2, h1]), if_pos (by omega)]
          simp

/-- If the observed count is constant from iteration `i + N` on, the loop
halts within `N + 3` iterations from state `(i, last, attempts)`. -/
theorem load_aux_const_terminates (counts : Nat → Nat) (maxR : Nat) :
    ∀ N i last attempts,
      (∀ n, i + N ≤ n → counts n = counts (i + N)) →
      (load_all_results_aux counts maxR (N + 3) i last attempts).isSome := by
  intro N
  induction N with
  | zero =>
    intro i last attempts hyp
    have h1 : counts (i + 1) = counts i := by simpa using hyp (i + 1) (by omega)
    have h2 : counts (i + 2) = counts i := by simpa using hyp (i + 2) (by omega)
    exact load_aux_two_const counts maxR i h1 h2 last attempts
  | succ N ih =>
    intro i last attempts hyp
    have e : i + 1 + N = i + (N + 1) := by omega
    have hyp2 : ∀ n, i + 1 + N ≤ n → counts n = counts (i + 1 + N) := by
      intro n hn
      rw [e]
      exact hyp n (by omega)
    rw [show N + 1 + 3 = (N + 3) + 1 from by omega, load_aux_succ]
    by_cases hA : maxR ≤ counts i
    · simp [hA]
    · rw [if_neg hA]
      by_cases hB : counts i = last
      · rw [if_pos hB]
        by_cases hC : 2 ≤ attempts + 1
        · simp [hC]
        · rw [if_neg hC]
          exact ih (i + 1) (counts i) (attempts + 1) hyp2
      · rw [if_neg hB]
        exact ih (i + 1) (counts i) 0 hyp2

/-- The append loop at lines 359-360 writes exactly the batch's ids, in
order, after the prior file content. -/
theorem foldl_save_eq (ads : List Ad) (reg : List String) :
    ads.foldl (fun r a => save_seen_ad r a.id) reg = reg ++ ads.map (fun a => a.id) := by
  induction ads generalizing reg with
  | nil => simp
  | cons a l ih =>
    rw [List.foldl_cons, ih]
    simp [save_seen_ad]

/-- `send_email_alert` returns normally whatever the SMTP outcome: the
dispatch block's exception handler converts a failure into a log line. -/
theorem send_email_alert_isOk (ads : List Ad) (o : SmtpOutcome) :
    ∃ logs, send_email_alert ads o = Except.ok logs := by
  cases o with
  | ok =>
    by_cases h : ads.isEmpty <;> simp [send_email_alert, smtpSend, h]
  | fail m =>
    by_cases h : ads.isEmpty <;> simp [send_email_alert, smtpSend, h]

/-- A session whose browser steps do not fault always completes: its seen
snapshot is the registry at entry, and the registry afterwards is the
snapshot plus the accepted ids, in order. -/
theorem processTerm_eq (cfg : Config) (now : String) (reg : List String)
    (env : TermEnv) (h : env.navFault = none) :
    processTerm cfg now reg env =
      Except.ok (reg,
        reg ++ (extract_new_ads env.cards reg cfg now).map (fun a => a.id),
        extract_new_ads env.cards reg cfg now) := by
  simp only [processTerm, h, load_seen_ads]
  by_cases he : (extract_new_ads env.cards reg cfg now).isEmpty
  · have hnil : extract_new_ads env.cards reg cfg now = [] := by
      simpa using he
    simp [he, hnil]
  · rw [if_neg he]
    obtain ⟨logs, hl⟩ := send_email_alert_isOk (extract_new_ads env.cards reg cfg now) env.smtp
    by_cases hs : cfg.sendEmail
    · rw [if_pos hs, hl]
      simp [foldl_save_eq]
    · rw [if_neg hs]
      simp [foldl_save_eq]

/-- A faulting session makes the whole loop stop at once: the sessions
list is cut off and the fault escapes to the run-level handler. -/
theorem runLoop_fault_head (cfg : Config) (now : String) (env : TermEnv)
    (rest : List TermEnv) (f : String) (henv : env.navFault = some f)
    (reg : List String) :
    runLoop cfg now (env :: rest) reg = ([], reg, some f) := by
  simp [runLoop, processTerm, henv]

/-- Splitting a run at the first faulting session: the completed sessions
and the registry are those of the fault-free part, and the fault is the
loop's escaping exception. -/
theorem runLoop_pre_fault (cfg : Config) (now : String) (pre : List TermEnv)
    (env : TermEnv) (rest : List TermEnv) (f : String)
    (hpre : ∀ e ∈ pre, e.navFault = none) (henv : env.navFault = some f) :
    ∀ reg, runLoop cfg now (pre ++ env :: rest) reg =
      ((runLoop cfg now pre reg).1, (runLoop cfg now pre reg).2.1, some f) := by
  induction pre with
  | nil =>
    intro reg
    rw [List.nil_append, runLoop_fault_head cfg now env rest f henv reg]
    simp [runLoop]
  | cons e pre ih =>
    intro reg
    have he : e.navFault = none := hpre e (List.mem_cons_self e pre)
    have hpre2 : ∀ x ∈ pre, x.navFault = none :=
      fun x hx => hpre x (List.mem_cons_of_mem e hx)
    rw [List.cons_append]
    simp only [runLoop, processTerm_eq cfg now reg e he]
    rw [ih hpre2]

/-- What an accepted record says about its card: the link was truthy, the
id is the link's trailing segment and was not in `seen`, the title came
from `resolveTitle`, and the price is the successful `float` conversion of
the normalized price text. -/
theorem evalCard_some {seen : List String} {cfg : Config} {now : String}
    {card : RawCard} {a : Ad} (h : evalCard seen cfg now card = some a) :
    ∃ href, card.href = some href ∧ href ≠ "" ∧ a.id = itemIdOf href ∧
      itemIdOf href ∉ seen ∧ resolveTitle card = some a.title ∧
      ∃ pt, card.priceText = some pt ∧ pyFloat (normalizePrice pt) = some a.price ∧
        a.link = href ∧ a.extractedAt = now := by
  cases hh : card.href with
  | none => simp [evalCard, hh] at h
  | some href =>
    by_cases h1 : href = ""
    · simp [evalCard, hh, h1] at h
    · by_cases h2 : itemIdOf href ∈ seen
      · simp [evalCard, hh, h1, h2] at h
      · cases ht : resolveTitle card with
        | none => simp [evalCard, hh, h1, h2, ht] at h
        | some t =>
          cases hp : card.priceText with
          | none => simp [evalCard, hh, h1, h2, ht, hp] at h
          | some pt =>
            cases hq : pyFloat (normalizePrice pt) with
            | none => simp [evalCard, hh, h1, h2, ht, hp, hq] at h
            | some q =>
              simp only [evalCard, hh, ht, hp, hq, if_neg h1, if_neg h2] at h
              injection h with h2a
              subst h2a
              exact ⟨href, rfl, h1, rfl, h2, rfl, pt, rfl, hq, rfl, rfl⟩

/-- A card yields nothing against a larger seen set once every id it could
have contributed against the smaller one is marked: the seen gate fires
where it fired before (or earlier), and the remaining skip reasons do not
read `seen` at all. -/
theorem evalCard_marked_none {seen seen2 : List String} {cfg : Config}
    {now : String} {card : RawCard}
    (hsub : ∀ x, x ∈ seen → x ∈ seen2)
    (hmark : ∀ a, evalCard seen cfg now card = some a → a.id ∈ seen2) :
    evalCard seen2 cfg now card = none := by
  cases hh : card.href with
  | none => simp [evalCard, hh]
  | some href =>
    by_cases h1 : href = ""
    · simp [evalCard, hh, h1]
    · by_cases h2 : itemIdOf href ∈ seen2
      · simp [evalCard, hh, h1, h2]
      · have h2s : itemIdOf href ∉ seen := fun hx => h2 (hsub _ hx)
        cases ht : resolveTitle card with
        | none => simp [evalCard, hh, h1, h2, ht]
        | some t =>
          cases hp : card.priceText with
          | none => simp [evalCard, hh, h1, h2, ht, hp]
          | some pt =>
            cases hq : pyFloat (normalizePrice pt) with
            | none => simp [evalCard, hh, h1, h2, ht, hp, hq]
            | some q =>
              exfalso
              apply h2
              apply hmark
                { id := itemIdOf href, title := t, price := q, link := href,
                  extractedAt := now,
                  imageUrl := if cfg.saveImages then card.imgSrc else none }
              simp [evalCard, hh, h1, h2s, ht, hp, hq]

/-- Running a pass against a seen set extended with all the ids the same
pass accepted yields nothing. -/
theorem extract_marked_nil (cards : List RawCard) (seen : List String)
    (cfg : Config) (now : String) :
    extract_new_ads cards
      (seen ++ (extract_new_ads cards seen cfg now).map (fun a => a.id)) cfg now = [] := by
  unfold extract_new_ads
  apply List.filterMap_eq_nil_iff.mpr
  intro c hc
  apply evalCard_marked_none
  · intro x hx
    exact List.mem_append_left _ hx
  · intro a hsome
    apply List.mem_append_right
    exact List.mem_map.mpr
      ⟨a, List.mem_filterMap.mpr ⟨c, hc, hsome⟩, rfl⟩

/-- The id sequence a pass returns is a selection (in order) of the ids the
processed cards carry: extraction never invents or reorders ids. -/
theorem extract_ids_sublist (l : List RawCard) (seen : List String)
    (cfg : Config) (now : String) :
    ((l.filterMap (evalCard seen cfg now)).map (fun a => a.id)).Sublist
      (l.filterMap cardId) := by
  induction l with
  | nil => simp
  | cons c cs ih =>
    cases he : evalCard seen cfg now c with
    | none =>
      rw [List.filterMap_cons_none he]
      cases hc : cardId c with
      | none =>
        rw [List.filterMap_cons_none hc]
        exact ih
      | some i =>
        rw [List.filterMap_cons_some hc]
        exact List.Sublist.cons i ih
    | some a =>
      obtain ⟨href, hh, h1, hid, _, _, _⟩ := evalCard_some he
      have hc : cardId c = some a.id := by simp [cardId, hh, h1, hid]
      rw [List.filterMap_cons_some he, List.filterMap_cons_some hc, List.map_cons]
      exact List.Sublist.cons₂ a.id ih

/-- Where a resolved title can come from: a truthy title attribute, or —
when the attribute is absent or empty — the title sub-element's text,
which is used even when it is the empty string. -/
theorem resolveTitle_some {card : RawCard} {t : String}
    (h : resolveTitle card = some t) :
    (card.titleAttr = some t ∧ t ≠ "") ∨
      ((card.titleAttr = none ∨ card.titleAttr = some "") ∧
        card.titleText = some t) := by
  cases ha : card.titleAttr with
  | none =>
    right
    refine ⟨Or.inl rfl, ?_⟩
    simpa [resolveTitle, ha] using h
  | some x =>
    by_cases hx : x = ""
    · subst hx
      right
      refine ⟨Or.inr rfl, ?_⟩
      simpa [resolveTitle, ha] using h
    · left
      simp only [resolveTitle, ha, if_neg hx] at h
      injection h with h2
      subst h2
      exact ⟨rfl, hx⟩

-- ------------------------------------------------------------------
-- Claims
-- ------------------------------------------------------------------

/-- C1, counterexample. The claim says that with three configured terms
where term 2's navigation faults, terms 1 and 3 still complete and their
records appear in the final aggregate. In the code the `try` block wraps
the whole `for` loop, so term 2's fault escapes the loop: term 3 never
runs, its record `bike-c1` is absent from the aggregate, and the summary
count is never computed. -/
theorem c1_counterexample :
    (wallaMain cfgNoEmail "t" [envBikeA, envTimeout, envBikeC] []).caughtError
        = some "timeout" ∧
    (wallaMain cfgNoEmail "t" [envBikeA, envTimeout, envBikeC] []).sessions.length = 1 ∧
    (wallaMain cfgNoEmail "t" [envBikeA, envTimeout, envBikeC] []).aggregate.map
        (fun a => a.id) = ["bike-a1"] ∧
    ¬ ("bike-c1" ∈ (wallaMain cfgNoEmail "t" [envBikeA, envTimeout, envBikeC] []).aggregate.map
        (fun a => a.id)) ∧
    (wallaMain cfgNoEmail "t" [envBikeA, envTimeout, envBikeC] []).uniqueCount = none := by
  decide

/-- C1, amended. A timeout or unexpected exception in one term's session is
NOT scoped to that session: it escapes the `for` loop to the run-level
handler, so the sessions after the faulting one never run. The run itself
still ends normally (the fault is caught and logged at run level), the
completed prior sessions keep their records and registry appends, but the
final aggregate holds only the records of the sessions that ran before the
fault and the unique-count summary is skipped. -/
theorem c1_fault_aborts_rest (cfg : Config) (now : String) (pre : List TermEnv)
    (env : TermEnv) (rest : List TermEnv) (reg0 : List String) (f : String)
    (hpre : ∀ e ∈ pre, e.navFault = none) (henv : env.navFault = some f) :
    (wallaMain cfg now (pre ++ env :: rest) reg0).caughtError = some f ∧
    (wallaMain cfg now (pre ++ env :: rest) reg0).sessions
      = (wallaMain cfg now pre reg0).sessions ∧
    (wallaMain cfg now (pre ++ env :: rest) reg0).aggregate
      = (wallaMain cfg now pre reg0).aggregate ∧
    (wallaMain cfg now (pre ++ env :: rest) reg0).registry
      = (wallaMain cfg now pre reg0).registry ∧
    (wallaMain cfg now (pre ++ env :: rest) reg0).uniqueCount = none := by
  have hrl := runLoop_pre_fault cfg now pre env rest f hpre henv reg0
  simp [wallaMain, hrl]

/-- C1, witness for the amended theorem at a concrete three-term run. -/
theorem c1_fault_aborts_rest_witness :
    (∀ e ∈ [envBikeA], e.navFault = none) ∧ envTimeout.navFault = some "timeout" ∧
    (wallaMain cfgNoEmail "t" ([envBikeA] ++ envTimeout :: [envBikeC]) []).uniqueCount
      = none :=
  ⟨by decide, by decide,
    (c1_fault_aborts_rest cfgNoEmail "t" [envBikeA] envTimeout [envBikeC] [] "timeout"
      (by decide) (by decide)).2.2.2.2⟩

/-- C2, counterexample. The claim says each accepted record's id is
appended to the registry before the next card is evaluated. In the code
`extract_new_ads` performs no registry writes; the appends happen in a
batch loop at lines 359-360, after extraction and the email. On two fresh
cards the session trace evaluates card 1 before the id of card 0 is
appended. -/
theorem c2_counterexample :
    sessionTrace cfgNoEmail "t" twoCards [] =
      [Ev.evalCard 0, Ev.evalCard 1, Ev.append "x1", Ev.append "x2"] ∧
    ¬ ((sessionTrace cfgNoEmail "t" twoCards []).indexOf (Ev.append "x1")
        < (sessionTrace cfgNoEmail "t" twoCards []).indexOf (Ev.evalCard 1)) := by
  decide

/-- C2, amended. The ids of a session's accepted records are appended in
one batch after every processed card has been evaluated (and after the
email dispatch), one append per record, before the next term's session: in
the session trace every card-evaluation event precedes every append
event. -/
theorem c2_appends_after_evals (cfg : Config) (now : String)
    (cards : List RawCard) (seen : List String) :
    ∀ i j k s,
      (sessionTrace cfg now cards seen).get? i = some (Ev.evalCard k) →
      (sessionTrace cfg now cards seen).get? j = some (Ev.append s) →
      i < j := by
  intro i j k s hi hj
  simp only [sessionTrace] at hi hj
  have hnoteval : ∀ e ∈ (if (extract_new_ads cards seen cfg now).isEmpty
        then ([] : List Ev)
        else (if cfg.sendEmail then [Ev.sendEmail] else [])
          ++ (extract_new_ads cards seen cfg now).map (fun a => Ev.append a.id)),
      ∀ m, e ≠ Ev.evalCard m := by
    intro e he m
    by_cases hE : (extract_new_ads cards seen cfg now).isEmpty
    · simp [hE] at he
    · rw [if_neg hE] at he
      rcases List.mem_append.mp he with h | h
      · by_cases hs : cfg.sendEmail
        · rw [if_pos hs] at h
          simp at h
          subst h
          simp
        · rw [if_neg hs] at h
          simp at h
      · obtain ⟨a, _, rfl⟩ := List.mem_map.mp h
        simp
  have hj_ge : (cards.take cfg.maxResults).length ≤ j := by
    by_contra hlt
    push_neg at hlt
    rw [List.get?_append (by simpa using hlt)] at hj
    rw [List.get?_map] at hj
    cases hr : (List.range (cards.take cfg.maxResults).length).get? j with
    | none => rw [hr] at hj; simp at hj
    | some mm => rw [hr] at hj; simp at hj
  have hi_lt : i < (cards.take cfg.maxResults).length := by
    by_contra hge
    push_neg at hge
    rw [List.get?_append_right (by simpa using hge)] at hi
    exact hnoteval _ (List.get?_mem hi) k rfl
  omega

/-- C2, witness for the amended theorem on the two-card trace. -/
theorem c2_appends_after_evals_witness :
    (sessionTrace cfgNoEmail "t" twoCards []).get? 0 = some (Ev.evalCard 0) ∧
    (sessionTrace cfgNoEmail "t" twoCards []).get? 2 = some (Ev.append "x1") ∧
    (0 : Nat) < 2 :=
  ⟨by decide, by decide,
    c2_appends_after_evals cfgNoEmail "t" twoCards [] 0 2 0 "x1" (by decide) (by decide)⟩

/-- C3, counterexample. The claim says the seen set is loaded from storage
exactly once, at the start of the run, and that single snapshot is what
every session reads. In the code `load_seen_ads()` runs inside the term
loop (line 335): with two sessions the second session's snapshot already
contains the id appended by the first, so not every session reads the
start-of-run snapshot. -/
theorem c3_counterexample :
    (wallaMain cfgNoEmail "t" [envBikeA, envBikeA] []).sessions.map Prod.fst
        = [[], ["bike-a1"]] ∧
    ¬ ((wallaMain cfgNoEmail "t" [envBikeA, envBikeA] []).sessions.map Prod.fst).all
        (fun s => s == ([] : List String)) := by
  decide

/-- C3, amended. The seen set is re-loaded once per session, immediately
before that session's extraction: the first session's snapshot is the
registry content at the start of the run, and each later session's
snapshot is the previous session's snapshot extended with exactly the ids
the previous session accepted. Within one session's extraction the
snapshot is read-only (extraction is a pure function of it). -/
theorem c3_snapshot_per_session (cfg : Config) (now : String)
    (envs : List TermEnv) (reg0 : List String) :
    SnapshotChain reg0 (wallaMain cfg now envs reg0).sessions := by
  suffices h : ∀ (l : List TermEnv) (reg : List String),
      SnapshotChain reg (runLoop cfg now l reg).1 by
    simpa [wallaMain] using h envs reg0
  intro l
  induction l with
  | nil =>
    intro reg
    simp [runLoop, SnapshotChain]
  | cons env rest ih =>
    intro reg
    cases hf : env.navFault with
    | some f =>
      rw [runLoop_fault_head cfg now env rest f hf reg]
      simp [SnapshotChain]
    | none =>
      simp only [runLoop, processTerm_eq cfg now reg env hf]
      exact ⟨rfl, ih _⟩

/-- C4. If the rendered-card count stops growing from iteration `N` on,
`load_all_results` halts within two further iterations — `N + 3` loop
iterations in total suffice, whatever the state — and the
target check is applied before the stall check: whenever the current count
reaches `max_results` the loop stops at once with the success outcome,
even in a state where the stall condition also holds. -/
theorem c4_expand_terminates (counts : Nat → Nat) (maxR N : Nat)
    (hconst : ∀ n, N ≤ n → counts n = counts N) :
    (load_all_results counts maxR (N + 3)).isSome = true ∧
    (∀ fuel i last attempts, maxR ≤ counts i →
      load_all_results_aux counts maxR (fuel + 1) i last attempts
        = some (counts i, StopReason.target)) := by
  constructor
  · unfold load_all_results
    apply load_aux_const_terminates
    intro n hn
    have h2 : counts (0 + N) = counts N := by rw [Nat.zero_add]
    rw [h2]
    exact hconst n (by omega)
  · intro fuel i last attempts h
    rw [load_aux_succ, if_pos h]

/-- C4, witness: a simulated source growing 0,1,2,3 and then stalling at 3
(below the target 10) halts with fuel `3 + 3`. -/
theorem c4_expand_terminates_witness :
    (∀ n, 3 ≤ n → min n 3 = min 3 3) ∧
    (load_all_results (fun n => min n 3) 10 (3 + 3)).isSome = true := by
  have h : ∀ n, 3 ≤ n → min n 3 = min 3 3 := by
    intro n hn
    rw [Nat.min_eq_right hn, Nat.min_self]
  exact ⟨h, (c4_expand_terminates (fun n => min n 3) 10 3 h).1⟩

/-- C5. Price normalization maps `"1.234,56 €"` to the rational 1234.56
and `"750 €"` to 750; a non-numeric remainder makes the conversion fail,
and the extraction pass drops exactly that card and keeps the rest. -/
theorem c5_price_normalization :
    pyFloat (normalizePrice "1.234,56 €") = some (1234.56 : ℚ) ∧
    pyFloat (normalizePrice "750 €") = some (750.0 : ℚ) ∧
    pyFloat (normalizePrice "Consultar") = none ∧
    (extract_new_ads
        [mkCard "g1" "Good One" "750 €", mkCard "b1" "Bad" "Consultar",
         mkCard "g2" "Good Two" "1.234,56 €"] [] cfgNoEmail "t").map (fun a => a.id)
      = ["g1", "g2"] := by
  refine ⟨?_, ?_, by decide, by decide⟩
  · have h : pyFloat (normalizePrice "1.234,56 €") = some (mkRat 123456 100) := by
      decide
    rw [h]
    congr 1
    rw [Rat.mkRat_eq_div]
    norm_num
  · have h : pyFloat (normalizePrice "750 €") = some (mkRat 750 1) := by decide
    rw [h]
    congr 1
    rw [Rat.mkRat_eq_div]
    norm_num

/-- C6, counterexample. The claim says every returned record's price is a
finite non-negative number. The code's only filter is that `float(...)`
succeeds; it never checks the sign, and Python's `float` accepts a leading
minus, so a card displaying `"-5 €"` is returned with the negative price
-5. -/
theorem c6_counterexample :
    (extract_new_ads [negCard] [] cfgNoEmail "t").map (fun a => a.price)
        = [-(mkRat 5 1)] ∧
    -(mkRat 5 1) < 0 := by
  decide

/-- C6, amended. Every returned record's price is exactly the value the
normalize-then-`float` pipeline produced for that card's price text — a
card is discarded when (and only because) that conversion fails — but no
non-negativity check is performed, so the price need not be
non-negative. -/
theorem c6_price_from_conversion (cards : List RawCard) (seen : List String)
    (cfg : Config) (now : String) :
    ∀ a ∈ extract_new_ads cards seen cfg now,
      ∃ card ∈ cards.take cfg.maxResults, ∃ pt, card.priceText = some pt ∧
        pyFloat (normalizePrice pt) = some a.price := by
  intro a ha
  obtain ⟨c, hc, he⟩ := List.mem_filterMap.mp ha
  obtain ⟨href, _, _, _, _, _, pt, hp, hq, _, _⟩ := evalCard_some he
  exact ⟨c, hc, pt, hp, hq⟩

/-- C6, witness for the amended theorem at a concrete one-card pass. -/
theorem c6_price_from_conversion_witness :
    adGoodOne ∈ extract_new_ads [mkCard "g1" "Good One" "750 €"] [] cfgNoEmail "t" ∧
    ∃ card ∈ [mkCard "g1" "Good One" "750 €"].take cfgNoEmail.maxResults, ∃ pt,
      card.priceText = some pt ∧ pyFloat (normalizePrice pt) = some adGoodOne.price :=
  ⟨by decide, c6_price_from_conversion [mkCard "g1" "Good One" "750 €"] [] cfgNoEmail "t" adGoodOne (by decide)⟩

/-- C7. Dedup idempotence: a second pass over the same rendered cards,
with the seen set extended by the ids of all records the first pass
accepted, returns no records. -/
theorem c7_dedup_idempotent (cards : List RawCard) (seen : List String)
    (cfg : Config) (now : String) :
    extract_new_ads cards
      (seen ++ (extract_new_ads cards seen cfg now).map (fun a => a.id)) cfg now
      = [] :=
  extract_marked_nil cards seen cfg now

/-- C8, counterexample. The claim says returned ids are pairwise distinct
even when two distinct cards carry links with the same trailing segment.
The seen snapshot is read-only during a pass and there is no within-batch
dedup, so two fresh cards whose links both end in `x1` are both returned,
with equal ids. -/
theorem c8_counterexample :
    (extract_new_ads [mkCard "x1" "Item A" "10 €", dupCardB] [] cfgNoEmail "t").map
        (fun a => a.id) = ["x1", "x1"] ∧
    ¬ ((extract_new_ads [mkCard "x1" "Item A" "10 €", dupCardB] [] cfgNoEmail "t").map
        (fun a => a.id)).Nodup := by
  decide

/-- C8, amended. Extraction performs no within-batch id dedup: the returned
ids are a selection of the processed cards' trailing-segment ids, so they
are pairwise distinct whenever the processed cards' derived ids are
pairwise distinct — the situation the code relies on — while duplicate
trailing segments in the input yield duplicate record ids. -/
theorem c8_ids_nodup_of_cards_nodup (cards : List RawCard) (seen : List String)
    (cfg : Config) (now : String)
    (h : ((cards.take cfg.maxResults).filterMap cardId).Nodup) :
    ((extract_new_ads cards seen cfg now).map (fun a => a.id)).Nodup :=
  (extract_ids_sublist (cards.take cfg.maxResults) seen cfg now).nodup h

/-- C8, witness for the amended theorem on two cards with distinct ids. -/
theorem c8_ids_nodup_witness :
    (([mkCard "x1" "Item A" "10 €", mkCard "x2" "Item B" "20 €"].take
        cfgNoEmail.maxResults).filterMap cardId).Nodup ∧
    ((extract_new_ads [mkCard "x1" "Item A" "10 €", mkCard "x2" "Item B" "20 €"] []
        cfgNoEmail "t").map (fun a => a.id)).Nodup :=
  ⟨by decide,
    c8_ids_nodup_of_cards_nodup [mkCard "x1" "Item A" "10 €", mkCard "x2" "Item B" "20 €"]
      [] cfgNoEmail "t" (by decide)⟩

/-- C9, counterexample. The claim says every returned record has a
non-empty title. The fallback at line 205 uses the title sub-element's
inner text without checking it is non-empty: a card with no title
attribute and an empty-text title sub-element is returned with title
`""`, not skipped. -/
theorem c9_counterexample :
    (extract_new_ads [emptyTitleCard] [] cfgNoEmail "t").length = 1 ∧
    (extract_new_ads [emptyTitleCard] [] cfgNoEmail "t").map (fun a => a.title)
      = [""] := by
  decide

/-- C9, amended. Title resolution prefers a truthy (present and non-empty)
title attribute and otherwise falls back to the title sub-element's inner
text; the card is skipped only when the attribute is falsy and the
sub-element is absent. The fallback text is used even when empty, so a
returned record's title may be the empty string. -/
theorem c9_title_resolution (cards : List RawCard) (seen : List String)
    (cfg : Config) (now : String) :
    ∀ a ∈ extract_new_ads cards seen cfg now,
      ∃ card ∈ cards.take cfg.maxResults,
        ((card.titleAttr = some a.title ∧ a.title ≠ "") ∨
         ((card.titleAttr = none ∨ card.titleAttr = some "") ∧
           card.titleText = some a.title)) := by
  intro a ha
  obtain ⟨c, hc, he⟩ := List.mem_filterMap.mp ha
  obtain ⟨href, _, _, _, _, ht, _⟩ := evalCard_some he
  exact ⟨c, hc, resolveTitle_some ht⟩

/-- C9, witness for the amended theorem at a concrete one-card pass. -/
theorem c9_title_resolution_witness :
    adBikeA ∈ extract_new_ads [mkCard "bike-a1" "Bike A" "750 €"] [] cfgNoEmail "t" ∧
    ∃ card ∈ [mkCard "bike-a1" "Bike A" "750 €"].take cfgNoEmail.maxResults,
      ((card.titleAttr = some adBikeA.title ∧ adBikeA.title ≠ "") ∨
       ((card.titleAttr = none ∨ card.titleAttr = some "") ∧
         card.titleText = some adBikeA.title)) :=
  ⟨by decide, c9_title_resolution [mkCard "bike-a1" "Bike A" "750 €"] [] cfgNoEmail "t" adBikeA (by decide)⟩

/-- C10. An SMTP failure while sending the alert email is caught inside
`send_email_alert` (which therefore returns normally), so the session
continues: the session step succeeds, every new record's id is appended to
the registry, the records appear in the run's aggregate, and a later pass
over the same cards against the updated registry returns nothing — the
listings are not re-notified. -/
theorem c10_email_failure_isolated (cfg : Config) (now : String)
    (reg : List String) (env : TermEnv) (m : String)
    (hnav : env.navFault = none) (_hsmtp : env.smtp = SmtpOutcome.fail m) :
    (send_email_alert (extract_new_ads env.cards reg cfg now) env.smtp).isOk = true ∧
    processTerm cfg now reg env =
      Except.ok (reg,
        reg ++ (extract_new_ads env.cards reg cfg now).map (fun a => a.id),
        extract_new_ads env.cards reg cfg now) ∧
    (wallaMain cfg now [env] reg).aggregate = extract_new_ads env.cards reg cfg now ∧
    extract_new_ads env.cards
      (reg ++ (extract_new_ads env.cards reg cfg now).map (fun a => a.id)) cfg now
      = [] := by
  refine ⟨?_, processTerm_eq cfg now reg env hnav, ?_,
    extract_marked_nil env.cards reg cfg now⟩
  · obtain ⟨logs, hl⟩ := send_email_alert_isOk (extract_new_ads env.cards reg cfg now)
      env.smtp
    rw [hl]
    rfl
  · simp [wallaMain, runLoop, processTerm_eq cfg now reg env hnav]

/-- C10, witness at a concrete session whose SMTP dispatch fails. -/
theorem c10_email_failure_isolated_witness :
    envSmtpFail.navFault = none ∧
    envSmtpFail.smtp = SmtpOutcome.fail "535 authentication failed" ∧
    (send_email_alert (extract_new_ads envSmtpFail.cards [] cfgEmail "t")
        envSmtpFail.smtp).isOk = true :=
  ⟨by decide, by decide,
    (c10_email_failure_isolated cfgEmail "t" [] envSmtpFail "535 authentication failed"
      (by decide) (by decide)).1⟩

end WallaBot
